import Mathlib

/-!
# Verification of the Textinator detection-and-dispatch pipeline

Shallow embedding of the logic-bearing parts of the repository:

* `pasteboard.py` — the `Pasteboard` class over `NSPasteboard` (clipboard
  state with a change counter);
* `macvision.py`  — `detect_text_in_ciimage`, `detect_qrcodes_in_ciimage`
  and `make_request_handler` (recognition gateway);
* `textinator.py` — `Textinator.process_image`, `process_screenshot`,
  `initialize_screenshots`, `clipboard_watcher`, `process_clipboard_image`
  and the confidence-menu accessors.

Modelling conventions:

* Python floats (Vision confidence values and the `CONFIDENCE` table) are
  embedded as rationals `ℚ`; all confidences involved are exact decimal
  fractions, so `>=` on floats coincides with `≤` on `ℚ` for these values.
* The opaque `Quartz.CIImage` handle is a structure carrying the outcome the
  Vision backend would produce for it: a function from the recognition
  language list to a `VisionOutcome`, plus the list of QR payloads that
  `CIDetector` would find (`detect_qrcodes_in_ciimage` returns them).
* A Python `dict` (the `_screenshots` registry) is an insertion-ordered
  association list; assignment overwrites in place or appends a new key.
* Python exceptions are `Except String`; an event-handler body that lets an
  exception escape is modelled by `HandlerResult.raised`, carrying the state
  as already mutated at the point of the raise (the Python object is mutated
  in place, so mutations before the raise persist).
* Calls into the recognition backend are recorded in a ghost `recog_log`
  field at the unique call site of `process_image` in the screenshot
  handler; `process_image` invokes `detect_text_in_ciimage` exactly once,
  unconditionally, as its first action (textinator.py line 443).
-/

namespace Textinator

/-! ## Constants (textinator.py lines 50-64) -/

/-- `CONFIDENCE = {"LOW": 0.3, "MEDIUM": 0.5, "HIGH": 0.8}`; the keys are an
enumeration because `get_confidence_state` only ever produces these three. -/
inductive ConfidenceLevel : Type
  | LOW
  | MEDIUM
  | HIGH
deriving DecidableEq, Repr

def CONFIDENCE : ConfidenceLevel → ℚ
  | .LOW => mkRat 3 10
  | .MEDIUM => mkRat 1 2
  | .HIGH => mkRat 8 10

def LANGUAGE_ENGLISH : String := "en-US"

def LANGUAGE_DEFAULT : String := "en-US"

/-! ## Settings: the menu-item states and fields of the `Textinator` object
that `process_image` / the dispatchers read. A rumps `MenuItem.state`
doubles as a boolean setting in the source. -/

structure Settings : Type where
  /-- `self.confidence_low.state` -/
  confidence_low : Bool
  /-- `self.confidence_medium.state` -/
  confidence_medium : Bool
  /-- `self.confidence_high.state` -/
  confidence_high : Bool
  /-- `self.linebreaks.state` -/
  linebreaks : Bool
  /-- `self.append.state` -/
  append : Bool
  /-- `self.notification.state` -/
  notification : Bool
  /-- `self.language_english.state` ("Always detect English") -/
  language_english : Bool
  /-- `self.detect_clipboard.state` -/
  detect_clipboard : Bool
  /-- `self.confirmation.state` -/
  confirmation : Bool
  /-- `self.qrcodes.state` ("Detect QR codes") -/
  qrcodes : Bool
  /-- `self.recognition_language` -/
  recognition_language : String
deriving DecidableEq, Repr

/-- `Textinator.get_confidence_state` (textinator.py lines 291-300): priority
LOW, MEDIUM, HIGH, defaulting to `CONFIDENCE_DEFAULT = "LOW"`. -/
def get_confidence_state (s : Settings) : ConfidenceLevel :=
  if s.confidence_low then .LOW
  else if s.confidence_medium then .MEDIUM
  else if s.confidence_high then .HIGH
  else .LOW

/-! ## NSPasteboard host model

The host pasteboard holds optional text and optional image data and a change
counter.  Per the AppKit contract, `clearContents` takes ownership and bumps
`changeCount`; writing data to an already-cleared pasteboard does not bump it
again.  An external writer is modelled as one `clearContents` plus writes,
i.e. one counter bump with arbitrary new contents. -/

structure NSPasteboard : Type where
  changeCount : Nat
  text : Option String
  image : Option (List Nat)
deriving DecidableEq, Repr

def NSPasteboard.clearContents (pb : NSPasteboard) : NSPasteboard :=
  { changeCount := pb.changeCount + 1, text := none, image := none }

def NSPasteboard.setString (pb : NSPasteboard) (s : String) : NSPasteboard :=
  { pb with text := some s }

def NSPasteboard.setData (pb : NSPasteboard) (d : List Nat) : NSPasteboard :=
  { pb with image := some d }

/-- An external process changing the clipboard: ownership change (counter
bump) plus arbitrary new contents. -/
def NSPasteboard.external_write (pb : NSPasteboard) (t : Option String)
    (d : Option (List Nat)) : NSPasteboard :=
  { changeCount := pb.changeCount + 1, text := t, image := d }

/-! ## The `Pasteboard` class (pasteboard.py) -/

structure Pasteboard : Type where
  /-- `self.pasteboard` -/
  pasteboard : NSPasteboard
  /-- `self._change_count` -/
  change_count : Nat
deriving DecidableEq, Repr

namespace Pasteboard

/-- `Pasteboard.__init__` (lines 45-47). -/
def init (pb : NSPasteboard) : Pasteboard :=
  { pasteboard := pb, change_count := pb.changeCount }

/-- `Pasteboard.set_text` (lines 109-117): clear, write string, re-read the
change counter. -/
def set_text (p : Pasteboard) (text : String) : Pasteboard :=
  let pb := p.pasteboard.clearContents
  let pb := pb.setString text
  { pasteboard := pb, change_count := pb.changeCount }

/-- `Pasteboard.copy` (lines 49-55) delegates to `set_text`. -/
def copy (p : Pasteboard) (text : String) : Pasteboard :=
  p.set_text text

/-- `Pasteboard.get_text` (lines 119-124): `stringForType(...) or ""`. -/
def get_text (p : Pasteboard) : String :=
  (p.pasteboard.text).getD ""

/-- `Pasteboard.paste` (lines 57-62) delegates to `get_text`. -/
def paste (p : Pasteboard) : String :=
  p.get_text

/-- `Pasteboard.clear` (lines 73-76). -/
def clear (p : Pasteboard) : Pasteboard :=
  let pb := p.pasteboard.clearContents
  { pasteboard := pb, change_count := pb.changeCount }

/-- `Pasteboard.set_image_data` (lines 186-201), restricted to the two valid
formats (an invalid format raises before touching state, and the program
only ever passes `TIFF`). -/
def set_image_data (p : Pasteboard) (d : List Nat) : Pasteboard :=
  let pb := p.pasteboard.clearContents
  let pb := pb.setData d
  { pasteboard := pb, change_count := pb.changeCount }

/-- `Pasteboard.set_text_and_image_data` (lines 218-230). -/
def set_text_and_image_data (p : Pasteboard) (text : String) (d : List Nat) :
    Pasteboard :=
  let p1 := p.set_image_data d
  let pb := p1.pasteboard.setString text
  { pasteboard := pb, change_count := pb.changeCount }

/-- `Pasteboard.has_changed` (lines 232-240): returns the boolean and the
object state after the call (the source mutates `self._change_count`). -/
def has_changed (p : Pasteboard) : Bool × Pasteboard :=
  if p.pasteboard.changeCount ≠ p.change_count then
    (true, { pasteboard := p.pasteboard, change_count := p.pasteboard.changeCount })
  else
    (false, p)

/-- `Pasteboard.has_image` with `format=None` (lines 242-257): any image. -/
def has_image (p : Pasteboard) : Bool :=
  p.pasteboard.image.isSome

/-- `Pasteboard.has_text` (lines 265-270). -/
def has_text (p : Pasteboard) : Bool :=
  p.pasteboard.text.isSome

/-- `Pasteboard.get_image_data` for the `TIFF` format as used by
`process_clipboard_image` (lines 167-184): `dataForType_` may return `None`. -/
def get_image_data_tiff (p : Pasteboard) : Option (List Nat) :=
  p.pasteboard.image

end Pasteboard

/-! ## Recognition gateway (macvision.py)

A `VisionOutcome` describes what the Vision backend does for one request:
whether `performRequests_error_` reports success, whether the completion
handler is invoked with a non-nil `error`, and the observations the handler
would otherwise collect. -/

structure VisionOutcome : Type where
  /-- `success` as returned by `performRequests_error_` (line 118). -/
  success : Bool
  /-- whether the completion handler receives a non-nil `error` (line 131). -/
  handlerError : Bool
  /-- the `(string, confidence)` pairs the handler appends otherwise. -/
  observations : List (String × ℚ)
deriving DecidableEq, Repr

/-- The opaque `Quartz.CIImage` handle: the Vision outcome it induces (a
function of the recognition-language list handed to the request) and the QR
payloads `CIDetector` finds in it. -/
structure CIImage : Type where
  vision : List String → VisionOutcome
  qrcodes : List String

/-- The handler built by `make_request_handler` (macvision.py lines 125-139):
on error it only logs (`NSLog`), appending nothing, so the results list stays
empty; otherwise it appends every observation. -/
def make_request_handler_results (o : VisionOutcome) : List (String × ℚ) :=
  if o.handlerError then [] else o.observations

/-- `detect_text_in_ciimage` (macvision.py lines 79-122), orientation `None`:
`languages = languages or ["en-US"]`; the handler collects results; then
`if not success: raise ValueError(...)`. -/
def detect_text_in_ciimage (image : CIImage) (languages : List String) :
    Except String (List (String × ℚ)) :=
  let langs := if languages.isEmpty then ["en-US"] else languages
  let outcome := image.vision langs
  let results := make_request_handler_results outcome
  if outcome.success then .ok results
  else .error "Vision request failed"

/-- `detect_qrcodes_in_ciimage` (macvision.py lines 156-183). -/
def detect_qrcodes_in_ciimage (image : CIImage) : List String :=
  image.qrcodes

/-! ## The detection policy inside `Textinator.process_image`
(textinator.py lines 426-482), split into its successive stages. -/

/-- Language-list composition (lines 437-442): `[language, "en-US"]` when
"Always detect English" is on and the primary language is not English. -/
def languages_for (s : Settings) : List String :=
  if s.language_english && s.recognition_language ≠ LANGUAGE_ENGLISH then
    [s.recognition_language, LANGUAGE_ENGLISH]
  else
    [s.recognition_language]

/-- The confidence filter (line 446): `result[1] >= confidence`. -/
def filtered_results (confidence : ℚ) (detected_text : List (String × ℚ)) :
    List (String × ℚ) :=
  detected_text.filter fun r => confidence ≤ r.2

/-- Lines 445-447: join the surviving fragments' text with `"\n"`. -/
def joined_text (confidence : ℚ) (detected_text : List (String × ℚ)) : String :=
  String.intercalate "\n" ((filtered_results confidence detected_text).map Prod.fst)

/-- QR appending (lines 449-456): when enabled and payloads were found,
`text + "\n" + "\n".join(payloads) if text else "\n".join(payloads)`. -/
def with_qrcodes (enabled : Bool) (text : String) (detected_qrcodes : List String) :
    String :=
  if enabled then
    match detected_qrcodes with
    | [] => text
    | qrs => if text = "" then String.intercalate "\n" qrs
             else text ++ "\n" ++ String.intercalate "\n" qrs
  else text

/-- The detected-text value held in `text` just before the `if text:` test of
line 458: recognition, confidence filter, join, QR appending.  Recognition
failure propagates as an exception. -/
def policy_text (s : Settings) (image : CIImage) : Except String String :=
  match detect_text_in_ciimage image (languages_for s) with
  | .error e => .error e
  | .ok detected_text =>
      let confidence := CONFIDENCE (get_confidence_state s)
      let text := joined_text confidence detected_text
      .ok (with_qrcodes s.qrcodes text (detect_qrcodes_in_ciimage image))

/-- Line 460: `text.replace("\n", " ")` when `keep_linebreaks` is off. -/
def format_linebreaks (linebreaks : Bool) (text : String) : String :=
  if linebreaks then text else text.replace "\n" " "

/-- Lines 461-467: the value that would be committed to the clipboard —
append mode reads the current clipboard (empty string when it holds no
text) and prepends it with a `"\n"` separator when non-empty. -/
def proposed_clipboard_text (s : Settings) (p : Pasteboard) (text : String) :
    String :=
  if s.append then
    let clipboard_text := if p.has_text then p.paste else ""
    if clipboard_text = "" then text else clipboard_text ++ "\n" ++ text
  else text

/-- `Textinator.process_image` (lines 426-482).  `confirm_answer` is the
button the user would press in the `rumps.alert` confirmation dialog.
Returns the detected text (the function's return value) together with the
`Pasteboard` state after the call; a recognition failure propagates. -/
def process_image (s : Settings) (p : Pasteboard) (image : CIImage)
    (confirm_answer : Bool) : Except String (String × Pasteboard) :=
  match policy_text s image with
  | .error e => .error e
  | .ok text =>
      if text = "" then
        .ok (text, p)
      else
        let text := format_linebreaks s.linebreaks text
        let clipboard_text := proposed_clipboard_text s p text
        if s.confirmation then
          if confirm_answer then .ok (text, p.copy clipboard_text)
          else .ok (text, p)
        else
          .ok (text, p.copy clipboard_text)

/-! ## The `_screenshots` registry (SeenImageRegistry)

A Python dict keyed by symlink-resolved path.  Values are either the literal
`True` stored by `initialize_screenshots` or a string stored by
`process_screenshot` (`"__SKIPPED__"` or the detected text, possibly `""`). -/

inductive SeenValue : Type
  /-- `self._screenshots[path] = True` (line 388). -/
  | pendingSeen : SeenValue
  /-- `self._screenshots[path] = <string>` (lines 405 and 416). -/
  | result : String → SeenValue
deriving DecidableEq, Repr

def SKIPPED : String := "__SKIPPED__"

/-- Insertion-ordered association list standing for the Python dict. -/
abbrev Registry := List (String × SeenValue)

/-- Dict membership / item access: first (unique) binding for a key. -/
def lookupReg : Registry → String → Option SeenValue
  | [], _ => none
  | (k, v) :: rest, p => if k = p then some v else lookupReg rest p

/-- Dict assignment `d[k] = v`: overwrite in place, or append a new key. -/
def insertReg : Registry → String → SeenValue → Registry
  | [], k, v => [(k, v)]
  | (k', v') :: rest, k, v =>
      if k' = k then (k, v) :: rest else (k', v') :: insertReg rest k v

/-! ## Dispatcher state and event handling (textinator.py) -/

/-- The mutable state of the `Textinator` object that the dispatcher touches,
plus two ghost logs: `recog_log` records the identity for each invocation of
the recognition backend made on behalf of a screenshot event, and
`notifications` records each `rumps.notification(title, subtitle, message)`
call. -/
structure AppState : Type where
  /-- `self._paused` -/
  paused : Bool
  /-- the menu-item states read by the pipeline -/
  settings : Settings
  /-- `self._screenshots` -/
  screenshots : Registry
  /-- `self.pasteboard` -/
  pasteboard : Pasteboard
  /-- ghost: one entry per recognition-backend invocation for a screenshot -/
  recog_log : List String
  /-- ghost: `rumps.notification` calls -/
  notifications : List (String × String × String)

/-- One item delivered by a Spotlight notification: the symlink-resolved
path together with the result of `ciimage_from_file(path)` (`none` when the
image could not be loaded). -/
structure ScreenshotItem : Type where
  path : String
  image : Option CIImage

/-- Outcome of running a Python event-handler body: normal return, or an
uncaught exception escaping the handler.  Both carry the object state as
mutated so far (the Python object is mutated in place). -/
inductive HandlerResult : Type
  | ok : AppState → HandlerResult
  | raised : AppState → String → HandlerResult

/-- The state carried by a `HandlerResult`. -/
def HandlerResult.state : HandlerResult → AppState
  | .ok st => st
  | .raised st _ => st

/-- Whether the handler let an exception escape. -/
def HandlerResult.raisedQ : HandlerResult → Bool
  | .ok _ => false
  | .raised _ _ => true

/-- `Textinator.initialize_screenshots` (lines 377-388): mark every
currently-enumerated identity with the value `True`. -/
def initialize_screenshots (st : AppState) (paths : List String) : AppState :=
  { st with
    screenshots := paths.foldl (fun r p => insertReg r p .pendingSeen) st.screenshots }

/-- The body of the `for item in results` loop of
`Textinator.process_screenshot` (lines 393-424) for a single item. -/
def process_screenshot_item (st : AppState) (item : ScreenshotItem)
    (confirm_answer : Bool) : HandlerResult :=
  if (lookupReg st.screenshots item.path).isSome then
    -- already seen: skip (line 398-400)
    .ok st
  else if st.paused then
    -- paused: record "__SKIPPED__", no recognition (lines 402-406)
    .ok { st with screenshots := insertReg st.screenshots item.path (.result SKIPPED) }
  else
    match item.image with
    | none =>
        -- load failure: log and skip, not marked seen (lines 410-413)
        .ok st
    | some image =>
        -- ghost log: process_image invokes the backend exactly once
        let st := { st with recog_log := st.recog_log ++ [item.path] }
        match process_image st.settings st.pasteboard image confirm_answer with
        | .error e => .raised st e
        | .ok (detected_text, p') =>
            let st := { st with
              pasteboard := p',
              screenshots := insertReg st.screenshots item.path (.result detected_text) }
            let st :=
              if st.settings.notification then
                { st with notifications := st.notifications ++
                    [("Processed Screenshot", item.path,
                      if detected_text = "" then "No text detected"
                      else "Detected text: " ++ detected_text)] }
              else st
            .ok st

/-- `Textinator.process_screenshot` (lines 390-424): iterate over the items
of one notification; an exception aborts the remaining items and escapes. -/
def process_screenshot (st : AppState) (items : List ScreenshotItem)
    (confirm_answer : Bool) : HandlerResult :=
  match items with
  | [] => .ok st
  | item :: rest =>
      match process_screenshot_item st item confirm_answer with
      | .raised st' e => .raised st' e
      | .ok st' => process_screenshot st' rest confirm_answer

/-- `Textinator.process_clipboard_image` (lines 523-538).  `decode` stands
for `Quartz.CIImage.imageWithData_`. -/
def process_clipboard_image (decode : List Nat → CIImage) (st : AppState)
    (confirm_answer : Bool) : HandlerResult :=
  match st.pasteboard.get_image_data_tiff with
  | none => .ok st
  | some image_data =>
      match process_image st.settings st.pasteboard (decode image_data)
          confirm_answer with
      | .error e => .raised st e
      | .ok (detected_text, p') =>
          let st := { st with pasteboard := p' }
          let st :=
            if st.settings.notification then
              { st with notifications := st.notifications ++
                  [("Processed Clipboard Image", "",
                    if detected_text = "" then "No text detected"
                    else "Detected text: " ++ detected_text)] }
            else st
          .ok st

/-- `Textinator.clipboard_watcher` (lines 505-521): one timer tick.
`has_changed() and has_image()` short-circuits, but `has_changed` has
already updated the stored change count when it returns. -/
def clipboard_watcher (decode : List Nat → CIImage) (st : AppState)
    (confirm_answer : Bool) : HandlerResult :=
  if !st.settings.detect_clipboard then
    .ok st
  else
    let changed := st.pasteboard.has_changed
    let st := { st with pasteboard := changed.2 }
    if changed.1 && st.pasteboard.has_image then
      if st.paused then .ok st
      else process_clipboard_image decode st confirm_answer
    else .ok st

/-- Process lifetime over screenshot events, one item at a time: an escaped
exception is absorbed by the Objective-C notification machinery (logged),
the object state persists, and the next event is still delivered. -/
def run_items (st : AppState) (trace : List (ScreenshotItem × Bool)) : AppState :=
  trace.foldl (fun s ev => (process_screenshot_item s ev.1 ev.2).state) st

/-- Coupling invariant: the backend has been invoked at most once for `p`,
and any invocation was immediately followed by recording `p` as seen. -/
def RecogInv (st : AppState) (p : String) : Prop :=
  st.recog_log.count p ≤ 1 ∧
    (st.recog_log.count p ≠ 0 → (lookupReg st.screenshots p).isSome)

/-! ## Concrete states for witnesses and counterexamples -/

/-- The default configuration written by `load_config` (textinator.py lines
200-211): confidence LOW, linebreaks on, append off, notifications on,
always-detect-English on, QR off, confirmation off, clipboard watch on. -/
def sampleSettings : Settings :=
  { confidence_low := true
    confidence_medium := false
    confidence_high := false
    linebreaks := true
    append := false
    notification := true
    language_english := true
    detect_clipboard := true
    confirmation := false
    qrcodes := false
    recognition_language := "en-US" }

def samplePasteboard : Pasteboard :=
  Pasteboard.init { changeCount := 0, text := none, image := none }

def sampleState : AppState :=
  { paused := false
    settings := sampleSettings
    screenshots := []
    pasteboard := samplePasteboard
    recog_log := []
    notifications := [] }

/-- An image for which the Vision request reports failure
(`performRequests_error_` returns `success = false`). -/
def failImage : CIImage :=
  { vision := fun _ => { success := false, handlerError := false, observations := [] }
    qrcodes := [] }

/-- An image recognized successfully with one high-confidence fragment. -/
def okImage : CIImage :=
  { vision := fun _ =>
      { success := true, handlerError := false, observations := [("Hello", mkRat 9 10)] }
    qrcodes := [] }

/-- An image whose Vision request succeeds but whose completion handler is
invoked with a non-nil error (so no observations are collected). -/
def handlerErrorImage : CIImage :=
  { vision := fun _ => { success := true, handlerError := true, observations := [] }
    qrcodes := [] }

/-- The default configuration with append mode switched on. -/
def appendSettings : Settings :=
  { sampleSettings with append := true }

/-- A pasteboard currently holding the text "A". -/
def pasteboardA : Pasteboard :=
  Pasteboard.init { changeCount := 5, text := some "A", image := none }

/-- The default configuration with confirmation switched on. -/
def confirmSettings : Settings :=
  { sampleSettings with confirmation := true }

/-- The sample dispatcher state with confirmation switched on. -/
def confirmState : AppState :=
  { sampleState with settings := confirmSettings }

/-- The sample dispatcher state while paused. -/
def pausedState : AppState :=
  { sampleState with paused := true }

/-! ## Registry lemmas -/

theorem lookupReg_insertReg_self (r : Registry) (k : String) (v : SeenValue) :
    lookupReg (insertReg r k v) k = some v := by
  induction r with
  | nil => simp [insertReg, lookupReg]
  | cons kv rest ih =>
      by_cases h : kv.1 = k
      · simp [insertReg, lookupReg, h]
      · simp [insertReg, lookupReg, h, ih]

theorem lookupReg_insertReg_ne (r : Registry) (k : String) (v : SeenValue)
    (q : String) (h : k ≠ q) : lookupReg (insertReg r k v) q = lookupReg r q := by
  induction r with
  | nil => simp [insertReg, lookupReg, h]
  | cons kv rest ih =>
      by_cases hk : kv.1 = k
      · simp [insertReg, lookupReg, hk, h]
      · simp [insertReg, lookupReg, hk, ih]

theorem isSome_lookupReg_insertReg (r : Registry) (k : String) (v : SeenValue)
    (q : String) (h : (lookupReg r q).isSome) :
    (lookupReg (insertReg r k v) q).isSome := by
  by_cases hk : k = q
  · subst hk; simp [lookupReg_insertReg_self]
  · rwa [lookupReg_insertReg_ne r k v q hk]

/-! ## Recognition and policy lemmas -/

theorem languages_for_ne_empty (s : Settings) : (languages_for s).isEmpty = false := by
  unfold languages_for
  split <;> rfl

theorem detect_text_in_ciimage_languages_for (image : CIImage) (s : Settings) :
    detect_text_in_ciimage image (languages_for s) =
      if (image.vision (languages_for s)).success then
        .ok (make_request_handler_results (image.vision (languages_for s)))
      else .error "Vision request failed" := by
  unfold detect_text_in_ciimage
  rw [languages_for_ne_empty]
  rfl

theorem policy_text_of_success {image : CIImage} {s : Settings}
    (h : (image.vision (languages_for s)).success = true) :
    policy_text s image =
      .ok (with_qrcodes s.qrcodes
        (joined_text (CONFIDENCE (get_confidence_state s))
          (make_request_handler_results (image.vision (languages_for s))))
        image.qrcodes) := by
  unfold policy_text
  rw [detect_text_in_ciimage_languages_for, h]
  rfl

theorem policy_text_of_failure {image : CIImage} {s : Settings}
    (h : (image.vision (languages_for s)).success = false) :
    policy_text s image = .error "Vision request failed" := by
  unfold policy_text
  rw [detect_text_in_ciimage_languages_for, h]
  rfl

/-! ## `process_image` inversion lemmas -/

theorem process_image_of_error {s : Settings} {image : CIImage} {e : String}
    (p : Pasteboard) (c : Bool) (h : policy_text s image = .error e) :
    process_image s p image c = .error e := by
  unfold process_image
  rw [h]

theorem process_image_of_empty {s : Settings} {image : CIImage}
    (p : Pasteboard) (c : Bool) (h : policy_text s image = .ok "") :
    process_image s p image c = .ok ("", p) := by
  unfold process_image
  rw [h]
  rfl

theorem process_image_of_nonempty {s : Settings} {image : CIImage} {t0 : String}
    (p : Pasteboard) (c : Bool) (h : policy_text s image = .ok t0) (hne : t0 ≠ "") :
    process_image s p image c =
      .ok (format_linebreaks s.linebreaks t0,
        if s.confirmation then
          if c then
            p.copy (proposed_clipboard_text s p (format_linebreaks s.linebreaks t0))
          else p
        else
          p.copy (proposed_clipboard_text s p (format_linebreaks s.linebreaks t0))) := by
  unfold process_image
  rw [h]
  simp only [if_neg hne]
  split_ifs <;> rfl

/-- With a successful Vision request, `process_image` returns normally. -/
theorem process_image_isOk_of_success {s : Settings} {image : CIImage}
    (p : Pasteboard) (c : Bool)
    (h : (image.vision (languages_for s)).success = true) :
    ∃ t p', process_image s p image c = .ok (t, p') := by
  have hp := policy_text_of_success (s := s) h
  by_cases he :
      with_qrcodes s.qrcodes
        (joined_text (CONFIDENCE (get_confidence_state s))
          (make_request_handler_results (image.vision (languages_for s))))
        image.qrcodes = ""
  · rw [he] at hp
    exact ⟨"", p, process_image_of_empty p c hp⟩
  · exact ⟨_, _, process_image_of_nonempty p c hp he⟩

/-! ## Dispatcher step lemmas -/

theorem process_screenshot_item_of_seen {st : AppState} {item : ScreenshotItem}
    (c : Bool) (h : (lookupReg st.screenshots item.path).isSome) :
    process_screenshot_item st item c = .ok st := by
  unfold process_screenshot_item
  rw [if_pos h]

theorem process_screenshot_item_of_paused {st : AppState} {item : ScreenshotItem}
    (c : Bool) (h : (lookupReg st.screenshots item.path).isSome = false)
    (hp : st.paused = true) :
    process_screenshot_item st item c =
      .ok { st with
            screenshots := insertReg st.screenshots item.path (.result SKIPPED) } := by
  unfold process_screenshot_item
  rw [if_neg (by simp [h]), if_pos hp]

theorem process_screenshot_item_of_load_failure {st : AppState}
    {item : ScreenshotItem} (c : Bool)
    (h : (lookupReg st.screenshots item.path).isSome = false)
    (hp : st.paused = false) (hl : item.image = none) :
    process_screenshot_item st item c = .ok st := by
  unfold process_screenshot_item
  rw [if_neg (by simp [h]), if_neg (by simp [hp]), hl]

theorem process_screenshot_item_of_image {st : AppState} {item : ScreenshotItem}
    {image : CIImage} (c : Bool)
    (h : (lookupReg st.screenshots item.path).isSome = false)
    (hp : st.paused = false) (hl : item.image = some image) :
    process_screenshot_item st item c =
      (let st' := { st with recog_log := st.recog_log ++ [item.path] }
       match process_image st'.settings st'.pasteboard image c with
       | .error e => .raised st' e
       | .ok (detected_text, p') =>
           let st'' := { st' with
             pasteboard := p',
             screenshots := insertReg st'.screenshots item.path (.result detected_text) }
           let st'' :=
             if st''.settings.notification then
               { st'' with notifications := st''.notifications ++
                   [("Processed Screenshot", item.path,
                     if detected_text = "" then "No text detected"
                     else "Detected text: " ++ detected_text)] }
             else st''
           .ok st'') := by
  unfold process_screenshot_item
  rw [if_neg (by simp [h]), if_neg (by simp [hp]), hl]

/-- A screenshot-event step never removes a registry key. -/
theorem process_screenshot_item_mono {st : AppState} {item : ScreenshotItem}
    {c : Bool} (q : String) (h : (lookupReg st.screenshots q).isSome) :
    (lookupReg (process_screenshot_item st item c).state.screenshots q).isSome := by
  by_cases hseen : (lookupReg st.screenshots item.path).isSome
  · rw [process_screenshot_item_of_seen c hseen]; exact h
  · have hseen' : (lookupReg st.screenshots item.path).isSome = false := by
      simpa using hseen
    by_cases hp : st.paused
    · rw [process_screenshot_item_of_paused c hseen' hp]
      exact isSome_lookupReg_insertReg _ _ _ _ h
    · have hp' : st.paused = false := by simpa using hp
      cases hl : item.image with
      | none =>
          rw [process_screenshot_item_of_load_failure c hseen' hp' hl]; exact h
      | some image =>
          rw [process_screenshot_item_of_image c hseen' hp' hl]
          dsimp only
          cases hpi : process_image st.settings st.pasteboard image c with
          | error e => simpa [HandlerResult.state] using h
          | ok pr =>
              obtain ⟨dt, p'⟩ := pr
              dsimp only
              split <;> simpa [HandlerResult.state] using
                isSome_lookupReg_insertReg st.screenshots item.path (.result dt) q h

/-! ## At-most-once invariant for the recognition backend -/

theorem recogInv_step {st : AppState} {item : ScreenshotItem} {c : Bool}
    {p : String}
    (hs : ∀ image, item.image = some image →
      ∀ langs, (image.vision langs).success = true)
    (h : RecogInv st p) : RecogInv (process_screenshot_item st item c).state p := by
  obtain ⟨h1, h2⟩ := h
  by_cases hseen : (lookupReg st.screenshots item.path).isSome
  · rw [process_screenshot_item_of_seen c hseen]; exact ⟨h1, h2⟩
  · have hseen' : (lookupReg st.screenshots item.path).isSome = false := by
      simpa using hseen
    by_cases hp : st.paused
    · rw [process_screenshot_item_of_paused c hseen' hp]
      exact ⟨h1, fun hc => isSome_lookupReg_insertReg _ _ _ _ (h2 hc)⟩
    · have hp' : st.paused = false := by simpa using hp
      cases hl : item.image with
      | none =>
          rw [process_screenshot_item_of_load_failure c hseen' hp' hl]
          exact ⟨h1, h2⟩
      | some image =>
          rw [process_screenshot_item_of_image c hseen' hp' hl]
          dsimp only
          obtain ⟨t, p', hpi⟩ :=
            process_image_isOk_of_success st.pasteboard c
              (hs image hl (languages_for st.settings))
          rw [hpi]
          dsimp only
          by_cases hpq : item.path = p
          · subst hpq
            have hzero : st.recog_log.count item.path = 0 := by
              by_contra hnz
              rw [h2 hnz] at hseen'
              exact absurd hseen' (by simp)
            constructor
            · split <;>
                simp [HandlerResult.state, List.count_append, hzero]
            · intro _
              split <;>
                simp [HandlerResult.state, lookupReg_insertReg_self]
          · constructor
            · split <;>
                simpa [HandlerResult.state, List.count_append,
                  List.count_singleton, Ne.symm hpq] using h1
            · intro hc
              have hc' : st.recog_log.count p ≠ 0 := by
                intro hz
                refine hc ?_
                revert hc
                split <;>
                  simp [HandlerResult.state, List.count_append,
                    List.count_singleton, Ne.symm hpq, hz]
              have := isSome_lookupReg_insertReg st.screenshots item.path
                (.result t) p (h2 hc')
              split <;> simpa [HandlerResult.state] using this

theorem recogInv_run (trace : List (ScreenshotItem × Bool)) :
    ∀ (st : AppState) (p : String),
      (∀ ev ∈ trace, ∀ image, ev.1.image = some image →
        ∀ langs, (image.vision langs).success = true) →
      RecogInv st p → RecogInv (run_items st trace) p := by
  induction trace with
  | nil => intro st p _ h; exact h
  | cons ev rest ih =>
      intro st p hs h
      rw [run_items, List.foldl_cons]
      exact ih _ p (fun e he => hs e (List.mem_cons_of_mem ev he))
        (recogInv_step (hs ev (List.mem_cons_self ev rest)) h)

theorem run_items_mono (trace : List (ScreenshotItem × Bool)) :
    ∀ (st : AppState) (q : String),
      (lookupReg st.screenshots q).isSome →
      (lookupReg (run_items st trace).screenshots q).isSome := by
  induction trace with
  | nil => intro st q h; exact h
  | cons ev rest ih =>
      intro st q h
      rw [run_items, List.foldl_cons]
      exact ih _ q (process_screenshot_item_mono q h)

/-- Filtering by the confidence predicate keeps every copy of a fragment
whose confidence clears the threshold. -/
theorem countP_filter_le (c : ℚ) (f : String × ℚ) (hf : c ≤ f.2)
    (l : List (String × ℚ)) :
    (l.filter fun r => c ≤ r.2).countP (fun g => g = f) =
      l.countP (fun g => g = f) := by
  induction l with
  | nil => rfl
  | cons a l ih =>
      by_cases ha : c ≤ a.2
      · simp [List.filter_cons, ha, List.countP_cons, ih]
      · have hne : ¬a = f := fun he => ha (by rw [he]; exact hf)
        simp [List.filter_cons, ha, List.countP_cons, ih, hne]

/-- The clipboard read in append mode coincides with `get_text`: when the
pasteboard holds no text the read is the empty string. -/
theorem paste_if_has_text (p : Pasteboard) :
    (if p.has_text then p.paste else "") = p.get_text := by
  unfold Pasteboard.has_text Pasteboard.paste Pasteboard.get_text
  cases p.pasteboard.text <;> simp

theorem get_text_of_not_has_text (p : Pasteboard) (h : p.has_text = false) :
    p.get_text = "" := by
  unfold Pasteboard.has_text at h
  unfold Pasteboard.get_text
  cases hp : p.pasteboard.text with
  | none => rfl
  | some s => rw [hp] at h; exact absurd h (by simp)

theorem proposed_clipboard_text_eq (s : Settings) (p : Pasteboard) (text : String) :
    proposed_clipboard_text s p text =
      if s.append then
        if p.get_text = "" then text else p.get_text ++ "\n" ++ text
      else text := by
  unfold proposed_clipboard_text
  rw [paste_if_has_text]

/-- When the commit is not blocked by the confirmation dialog (confirmation
off, or the user approved), a non-empty detected text is committed as the
proposed clipboard text. -/
theorem process_image_commits {s : Settings} {image : CIImage} {t : String}
    {p p' : Pasteboard} {ca : Bool}
    (hcommit : s.confirmation = false ∨ ca = true)
    (hpi : process_image s p image ca = .ok (t, p'))
    (hne : t ≠ "") :
    p' = p.copy (proposed_clipboard_text s p t) := by
  cases hpt : policy_text s image with
  | error e =>
      rw [process_image_of_error p ca hpt] at hpi
      exact absurd hpi (by simp)
  | ok t0 =>
      by_cases h0 : t0 = ""
      · subst h0
        rw [process_image_of_empty p ca hpt] at hpi
        simp only [Except.ok.injEq, Prod.mk.injEq] at hpi
        exact absurd hpi.1.symm hne
      · rw [process_image_of_nonempty p ca hpt h0] at hpi
        simp only [Except.ok.injEq, Prod.mk.injEq] at hpi
        obtain ⟨ht, hp'⟩ := hpi
        rw [← ht]
        rcases hcommit with hc | hc
        · rw [hc] at hp'
          simpa using hp'.symm
        · rw [hc] at hp'
          by_cases hcf : s.confirmation <;> simp [hcf] at hp' <;>
            exact hp'.symm

/-- A non-empty detected text behind an enabled confirmation dialog: the
answer decides between committing the proposed text and leaving the
pasteboard untouched, and the returned text does not depend on the answer. -/
theorem process_image_confirmation {s : Settings} {image : CIImage} {t : String}
    {p pd : Pasteboard}
    (hconf : s.confirmation = true)
    (hpi : process_image s p image false = .ok (t, pd))
    (hne : t ≠ "") :
    pd = p ∧
      process_image s p image true =
        .ok (t, p.copy (proposed_clipboard_text s p t)) := by
  cases hpt : policy_text s image with
  | error e =>
      rw [process_image_of_error p false hpt] at hpi
      exact absurd hpi (by simp)
  | ok t0 =>
      by_cases h0 : t0 = ""
      · subst h0
        rw [process_image_of_empty p false hpt] at hpi
        simp only [Except.ok.injEq, Prod.mk.injEq] at hpi
        exact absurd hpi.1.symm hne
      · rw [process_image_of_nonempty p false hpt h0] at hpi
        simp only [hconf, if_true, Bool.false_eq_true, if_false,
          Except.ok.injEq, Prod.mk.injEq] at hpi
        obtain ⟨ht, hp'⟩ := hpi
        refine ⟨hp'.symm, ?_⟩
        rw [process_image_of_nonempty p true hpt h0]
        simp [hconf, ht]

/-- A screenshot event whose final detected string is empty: the pasteboard
is untouched, the registry records `""`, and the notifier (when enabled)
reports "No text detected". -/
theorem empty_text_step (st : AppState) (item : ScreenshotItem)
    (image : CIImage) (c : Bool)
    (hp : st.paused = false)
    (hseen : lookupReg st.screenshots item.path = none)
    (hl : item.image = some image)
    (hpt : policy_text st.settings image = .ok "") :
    ∃ st', process_screenshot_item st item c = .ok st' ∧
      st'.pasteboard = st.pasteboard ∧
      lookupReg st'.screenshots item.path = some (.result "") ∧
      (st.settings.notification = true →
        st'.notifications = st.notifications ++
          [("Processed Screenshot", item.path, "No text detected")]) ∧
      (st.settings.notification = false →
        st'.notifications = st.notifications) := by
  have hseen' : (lookupReg st.screenshots item.path).isSome = false := by
    rw [hseen]; rfl
  rw [process_screenshot_item_of_image c hseen' hp hl]
  dsimp only
  rw [process_image_of_empty st.pasteboard c hpt]
  dsimp only
  by_cases hn : st.settings.notification
  · rw [if_pos hn]
    exact ⟨_, rfl, rfl, lookupReg_insertReg_self _ _ _,
      fun _ => rfl, fun h2 => absurd hn (by simp [h2])⟩
  · rw [if_neg hn]
    exact ⟨_, rfl, rfl, lookupReg_insertReg_self _ _ _,
      fun h2 => absurd h2 hn, fun _ => rfl⟩

/-! ## Claims -/

/-- C1: for every settings state and recognition result, the fragments that
survive the confidence filter are exactly those with confidence ≥ the
current threshold's numeric value (boundary kept), in backend order without
sorting or deduplication, joined with a newline; the three thresholds are
LOW = 0.3, MEDIUM = 0.5 and HIGH = 0.8. -/
theorem claim_C1_confidence_filter (s : Settings)
    (detected_text : List (String × ℚ)) :
    (∀ f, f ∈ filtered_results (CONFIDENCE (get_confidence_state s)) detected_text ↔
        f ∈ detected_text ∧ CONFIDENCE (get_confidence_state s) ≤ f.2) ∧
    List.Sublist (filtered_results (CONFIDENCE (get_confidence_state s)) detected_text)
      detected_text ∧
    (∀ f, CONFIDENCE (get_confidence_state s) ≤ f.2 →
      (filtered_results (CONFIDENCE (get_confidence_state s)) detected_text).countP
          (fun g => g = f) =
        detected_text.countP (fun g => g = f)) ∧
    joined_text (CONFIDENCE (get_confidence_state s)) detected_text =
      String.intercalate "\n"
        ((filtered_results (CONFIDENCE (get_confidence_state s)) detected_text).map
          Prod.fst) ∧
    CONFIDENCE .LOW = 3 / 10 ∧ CONFIDENCE .MEDIUM = 1 / 2 ∧
      CONFIDENCE .HIGH = 8 / 10 :=
  ⟨fun f => by simp [filtered_results, List.mem_filter],
   List.filter_sublist _,
   fun f hf => countP_filter_le _ f hf detected_text,
   rfl,
   by norm_num [CONFIDENCE, Rat.mkRat_eq_divInt, Rat.divInt_eq_div],
   by norm_num [CONFIDENCE, Rat.mkRat_eq_divInt, Rat.divInt_eq_div],
   by norm_num [CONFIDENCE, Rat.mkRat_eq_divInt, Rat.divInt_eq_div]⟩

/-- Witness for C1 at a concrete input: with the default settings (threshold
LOW = 0.3) a fragment sitting exactly at the boundary is kept. -/
theorem claim_C1_witness :
    CONFIDENCE (get_confidence_state sampleSettings) ≤ mkRat 3 10 ∧
    ("A", mkRat 3 10) ∈
      filtered_results (CONFIDENCE (get_confidence_state sampleSettings))
        [("A", mkRat 3 10), ("B", mkRat 1 10)] :=
  ⟨by decide,
   ((claim_C1_confidence_filter sampleSettings
      [("A", mkRat 3 10), ("B", mkRat 1 10)]).1 ("A", mkRat 3 10)).mpr
    ⟨by decide, by decide⟩⟩

/-- C6: with QR detection enabled, found payloads are appended after the
joined fragment text, each on its own line, separated from the text block by
a single newline; with no payloads the text is unchanged; with empty text
and payloads ["X", "Y"] the result is exactly "X\nY". -/
theorem claim_C6_qrcodes (text : String) (qrs : List String) :
    (qrs ≠ [] → text ≠ "" →
      with_qrcodes true text qrs = text ++ "\n" ++ String.intercalate "\n" qrs) ∧
    (qrs ≠ [] → with_qrcodes true "" qrs = String.intercalate "\n" qrs) ∧
    with_qrcodes true text [] = text ∧
    with_qrcodes true "" ["X", "Y"] = "X\nY" := by
  refine ⟨?_, ?_, rfl, rfl⟩
  · intro hq ht
    cases qrs with
    | nil => exact absurd rfl hq
    | cons a l => simp [with_qrcodes, ht]
  · intro hq
    cases qrs with
    | nil => exact absurd rfl hq
    | cons a l => simp [with_qrcodes]

/-- Witness for C6 at a concrete input. -/
theorem claim_C6_witness :
    (["X"] ≠ ([] : List String) ∧ "A" ≠ "") ∧
    with_qrcodes true "A" ["X"] = "A" ++ "\n" ++ String.intercalate "\n" ["X"] :=
  ⟨⟨by decide, by decide⟩,
   (claim_C6_qrcodes "A" ["X"]).1 (by decide) (by decide)⟩

/-- C10: every clipboard mutation performed by the program itself re-reads
the pasteboard's change counter, so an immediately following
`has_changed()` returns false; `has_changed()` reports an external change at
most once (and exactly once right after one); consequently a
`clipboard_watcher` tick directly after the program's own `copy` is a
no-op. -/
theorem claim_C10_change_count (p : Pasteboard) (t : String) (d : List Nat) :
    ((p.set_text t).has_changed).1 = false ∧
    ((p.copy t).has_changed).1 = false ∧
    ((p.clear).has_changed).1 = false ∧
    ((p.set_image_data d).has_changed).1 = false ∧
    ((p.set_text_and_image_data t d).has_changed).1 = false ∧
    ((p.has_changed.2).has_changed).1 = false ∧
    (∀ (topt : Option String) (dopt : Option (List Nat)),
      p.change_count = p.pasteboard.changeCount →
      (({ p with pasteboard := p.pasteboard.external_write topt dopt } :
          Pasteboard).has_changed).1 = true) ∧
    (∀ (decode : List Nat → CIImage) (st : AppState) (c : Bool),
      clipboard_watcher decode { st with pasteboard := st.pasteboard.copy t } c =
        .ok { st with pasteboard := st.pasteboard.copy t }) := by
  refine ⟨?_, ?_, ?_, ?_, ?_, ?_, ?_, ?_⟩
  · simp [Pasteboard.set_text, Pasteboard.has_changed]
  · simp [Pasteboard.copy, Pasteboard.set_text, Pasteboard.has_changed]
  · simp [Pasteboard.clear, Pasteboard.has_changed]
  · simp [Pasteboard.set_image_data, Pasteboard.has_changed]
  · simp [Pasteboard.set_text_and_image_data, Pasteboard.set_image_data,
      Pasteboard.has_changed, NSPasteboard.setString]
  · unfold Pasteboard.has_changed
    split <;> simp
  · intro topt dopt h
    simp [Pasteboard.has_changed, NSPasteboard.external_write, h]
  · intro decode st c
    unfold clipboard_watcher
    have hch : ((st.pasteboard.copy t).has_changed) = (false, st.pasteboard.copy t) := by
      simp [Pasteboard.copy, Pasteboard.set_text, Pasteboard.has_changed]
    split
    · rfl
    · rw [hch]
      simp

/-- Witness for C10 at a concrete input: the synced sample pasteboard
reports an external write exactly once. -/
theorem claim_C10_witness :
    samplePasteboard.change_count = samplePasteboard.pasteboard.changeCount ∧
    ((({ samplePasteboard with
          pasteboard := samplePasteboard.pasteboard.external_write (some "x") none } :
        Pasteboard).has_changed).1 = true) :=
  ⟨rfl,
   (claim_C10_change_count samplePasteboard "x" []).2.2.2.2.2.2.1
     (some "x") none rfl⟩

/-- C2: for every non-empty final detected text that is committed
(confirmation off, or approved), append mode commits `old + "\n" + new` when
the current clipboard text is non-empty and exactly `new` when it is empty
(the clipboard reads as "" when it holds no text); with append mode off the
committed value is exactly `new`, replacing the previous clipboard text. -/
theorem claim_C2_append_mode (s : Settings) (p : Pasteboard) (image : CIImage)
    (ca : Bool) (t : String) (p' : Pasteboard)
    (hcommit : s.confirmation = false ∨ ca = true)
    (hpi : process_image s p image ca = .ok (t, p'))
    (hne : t ≠ "") :
    (s.append = false → p' = p.copy t) ∧
    (s.append = true → p.get_text = "" → p' = p.copy t) ∧
    (s.append = true → p.get_text ≠ "" →
      p' = p.copy (p.get_text ++ "\n" ++ t)) ∧
    (p.has_text = false → p.get_text = "") := by
  have hp' := process_image_commits hcommit hpi hne
  rw [proposed_clipboard_text_eq] at hp'
  refine ⟨?_, ?_, ?_, get_text_of_not_has_text p⟩
  · intro ha; rw [hp', if_neg (by simp [ha])]
  · intro ha he; rw [hp', if_pos (by simp [ha]), if_pos he]
  · intro ha he; rw [hp', if_pos (by simp [ha]), if_neg he]

/-- Witness for C2 at a concrete input: append mode with clipboard text "A"
and detected text "Hello" commits "A\nHello". -/
theorem claim_C2_witness :
    (appendSettings.confirmation = false ∨ false = true) ∧
    "Hello" ≠ "" ∧ appendSettings.append = true ∧ pasteboardA.get_text ≠ "" ∧
    pasteboardA.copy ("A\nHello") =
      pasteboardA.copy (pasteboardA.get_text ++ "\n" ++ "Hello") :=
  ⟨Or.inl rfl, by decide, rfl, by decide,
   (claim_C2_append_mode appendSettings pasteboardA okImage false "Hello"
      (pasteboardA.copy "A\nHello") (Or.inl rfl) rfl (by decide)).2.2.1
     rfl (by decide)⟩

/-- C7: when the final detected string is empty the dispatcher leaves the
pasteboard completely untouched and, when notifications are enabled, still
reports "No text detected" via the notifier. -/
theorem claim_C7_empty_result (st : AppState) (item : ScreenshotItem)
    (image : CIImage) (c : Bool)
    (hp : st.paused = false)
    (hseen : lookupReg st.screenshots item.path = none)
    (hl : item.image = some image)
    (hpt : policy_text st.settings image = .ok "") :
    ∃ st', process_screenshot_item st item c = .ok st' ∧
      st'.pasteboard = st.pasteboard ∧
      lookupReg st'.screenshots item.path = some (.result "") ∧
      (st.settings.notification = true →
        st'.notifications = st.notifications ++
          [("Processed Screenshot", item.path, "No text detected")]) ∧
      (st.settings.notification = false →
        st'.notifications = st.notifications) :=
  empty_text_step st item image c hp hseen hl hpt

/-- Witness for C7 at a concrete input: a handler-level recognition error
yields the empty final string; the sample state's pasteboard is untouched
and the notification reads "No text detected". -/
theorem claim_C7_witness :
    policy_text sampleState.settings handlerErrorImage = .ok "" ∧
    ∃ st', process_screenshot_item sampleState
        { path := "/tmp/s.png", image := some handlerErrorImage } true = .ok st' ∧
      st'.pasteboard = sampleState.pasteboard ∧
      lookupReg st'.screenshots "/tmp/s.png" = some (.result "") ∧
      (sampleState.settings.notification = true →
        st'.notifications = sampleState.notifications ++
          [("Processed Screenshot", "/tmp/s.png", "No text detected")]) ∧
      (sampleState.settings.notification = false →
        st'.notifications = sampleState.notifications) :=
  ⟨rfl,
   claim_C7_empty_result sampleState
     { path := "/tmp/s.png", image := some handlerErrorImage }
     handlerErrorImage true rfl rfl rfl rfl⟩

/-- C5: with confirmation enabled and a non-empty detected text, declining
leaves the pasteboard exactly as before the event while the registry entry
for the identity is still written as the detected text; approving commits
the proposed clipboard text. -/
theorem claim_C5_confirmation (st : AppState) (item : ScreenshotItem)
    (image : CIImage) (t : String) (pd : Pasteboard)
    (hconf : st.settings.confirmation = true)
    (hp : st.paused = false)
    (hseen : lookupReg st.screenshots item.path = none)
    (hl : item.image = some image)
    (hpi : process_image st.settings st.pasteboard image false = .ok (t, pd))
    (hne : t ≠ "") :
    (∃ st', process_screenshot_item st item false = .ok st' ∧
       st'.pasteboard = st.pasteboard ∧
       lookupReg st'.screenshots item.path = some (.result t)) ∧
    (∃ st', process_screenshot_item st item true = .ok st' ∧
       st'.pasteboard =
         st.pasteboard.copy (proposed_clipboard_text st.settings st.pasteboard t) ∧
       lookupReg st'.screenshots item.path = some (.result t)) := by
  have hseen' : (lookupReg st.screenshots item.path).isSome = false := by
    rw [hseen]; rfl
  obtain ⟨hpd, hpi2⟩ := process_image_confirmation hconf hpi hne
  constructor
  · rw [process_screenshot_item_of_image false hseen' hp hl]
    dsimp only
    rw [hpi]
    dsimp only
    by_cases hn : st.settings.notification
    · rw [if_pos hn]
      exact ⟨_, rfl, hpd, lookupReg_insertReg_self _ _ _⟩
    · rw [if_neg hn]
      exact ⟨_, rfl, hpd, lookupReg_insertReg_self _ _ _⟩
  · rw [process_screenshot_item_of_image true hseen' hp hl]
    dsimp only
    rw [hpi2]
    dsimp only
    by_cases hn : st.settings.notification
    · rw [if_pos hn]
      exact ⟨_, rfl, rfl, lookupReg_insertReg_self _ _ _⟩
    · rw [if_neg hn]
      exact ⟨_, rfl, rfl, lookupReg_insertReg_self _ _ _⟩

/-- Witness for C5 at a concrete input: declining leaves the sample
pasteboard unchanged while the registry records "Hello". -/
theorem claim_C5_witness :
    confirmState.settings.confirmation = true ∧
    process_image confirmState.settings confirmState.pasteboard okImage false =
      .ok ("Hello", confirmState.pasteboard) ∧
    ((∃ st', process_screenshot_item confirmState
         { path := "/tmp/s.png", image := some okImage } false = .ok st' ∧
       st'.pasteboard = confirmState.pasteboard ∧
       lookupReg st'.screenshots "/tmp/s.png" = some (.result "Hello")) ∧
     (∃ st', process_screenshot_item confirmState
         { path := "/tmp/s.png", image := some okImage } true = .ok st' ∧
       st'.pasteboard = confirmState.pasteboard.copy
         (proposed_clipboard_text confirmState.settings confirmState.pasteboard
           "Hello") ∧
       lookupReg st'.screenshots "/tmp/s.png" = some (.result "Hello"))) :=
  ⟨rfl, rfl,
   claim_C5_confirmation confirmState
     { path := "/tmp/s.png", image := some okImage } okImage "Hello"
     confirmState.pasteboard rfl rfl rfl rfl rfl (by decide)⟩

/-- C3 counterexample: the claim's "recognition backend is invoked at most
once per identity over the process lifetime" fails on the code.  When the
Vision request raises, the identity is not recorded (the registry write
follows the `process_image` call), so a subsequent duplicate notification
for the same path invokes the backend again: after the two-event trace
below the backend has been invoked twice for "/tmp/s.png". -/
theorem claim_C3_counterexample :
    ¬ ((run_items sampleState
          [({ path := "/tmp/s.png", image := some failImage }, true),
           ({ path := "/tmp/s.png", image := some okImage }, true)]).recog_log.count
        "/tmp/s.png" ≤ 1) := by
  decide

/-- C3 (amended): in every trace in which the Vision request succeeds for
each processed event, the recognition backend is invoked at most once per
identity; independently of that hypothesis, registry entries are never
removed, and an event whose identity is already registered is ignored
without invoking recognition and without any state change. -/
theorem claim_C3_once_per_identity (st : AppState)
    (trace : List (ScreenshotItem × Bool)) (p : String) :
    (st.recog_log = [] →
      (∀ ev ∈ trace, ∀ image, ev.1.image = some image →
        ∀ langs, (image.vision langs).success = true) →
      (run_items st trace).recog_log.count p ≤ 1) ∧
    ((lookupReg st.screenshots p).isSome →
      (lookupReg (run_items st trace).screenshots p).isSome) ∧
    (∀ (item : ScreenshotItem) (c : Bool),
      (lookupReg st.screenshots item.path).isSome →
      process_screenshot_item st item c = .ok st) := by
  refine ⟨?_, run_items_mono trace st p,
    fun item c h => process_screenshot_item_of_seen c h⟩
  intro hlog hs
  have h0 : RecogInv st p := by
    constructor
    · rw [hlog]; simp
    · intro hc; rw [hlog] at hc; simp at hc
  exact (recogInv_run trace st p hs h0).1

/-- Witness for the amended C3 on a concrete error-free trace. -/
theorem claim_C3_witness :
    sampleState.recog_log = [] ∧
    (run_items sampleState
        [({ path := "/tmp/s.png", image := some okImage }, true)]).recog_log.count
      "/tmp/s.png" ≤ 1 :=
  ⟨rfl,
   (claim_C3_once_per_identity sampleState
      [({ path := "/tmp/s.png", image := some okImage }, true)] "/tmp/s.png").1
     rfl
     (by
       intro ev hev image himg langs
       rw [List.mem_singleton] at hev
       subst hev
       cases himg
       rfl)⟩

/-- C4 counterexample: the claim says a recognition-backend error "is never
propagated out of the event handler".  But `detect_text_in_ciimage` raises
`ValueError` when the Vision request fails (macvision.py lines 118-120) and
neither `process_image` nor `process_screenshot` catches it: the exception
escapes the screenshot event handler. -/
theorem claim_C4_counterexample :
    (process_screenshot sampleState
        [{ path := "/tmp/s.png", image := some failImage }] true).raisedQ = true := by
  rfl

/-- C4 (amended): an error reported to the recognition completion handler is
logged and treated as "no text detected" (empty fragments, pasteboard
untouched, registry entry `""`); but a failure of the Vision request itself
raises an exception that propagates out of `process_image` uncaught by the
screenshot handler, leaving the pasteboard unmodified and the identity
unrecorded. -/
theorem claim_C4_recognition_errors (st : AppState) (item : ScreenshotItem)
    (image : CIImage) (c : Bool)
    (hp : st.paused = false)
    (hseen : lookupReg st.screenshots item.path = none)
    (hl : item.image = some image) :
    ((image.vision (languages_for st.settings)).success = true →
      (image.vision (languages_for st.settings)).handlerError = true →
      image.qrcodes = [] →
      ∃ st', process_screenshot_item st item c = .ok st' ∧
        st'.pasteboard = st.pasteboard ∧
        lookupReg st'.screenshots item.path = some (.result "") ∧
        (st.settings.notification = true →
          st'.notifications = st.notifications ++
            [("Processed Screenshot", item.path, "No text detected")])) ∧
    ((image.vision (languages_for st.settings)).success = false →
      process_screenshot_item st item c =
        .raised { st with recog_log := st.recog_log ++ [item.path] }
          "Vision request failed" ∧
      ({ st with recog_log := st.recog_log ++ [item.path] } : AppState).pasteboard =
        st.pasteboard ∧
      lookupReg
        ({ st with recog_log := st.recog_log ++ [item.path] } : AppState).screenshots
        item.path = none) := by
  constructor
  · intro hsucc herr hqr
    have hpt : policy_text st.settings image = .ok "" := by
      rw [policy_text_of_success hsucc]
      have h1 : make_request_handler_results (image.vision (languages_for st.settings)) = [] := by
        simp [make_request_handler_results, herr]
      have h2 : ∀ e, with_qrcodes e "" [] = "" := by
        intro e; cases e <;> rfl
      rw [h1, hqr]
      have h3 : joined_text (CONFIDENCE (get_confidence_state st.settings)) [] = "" := rfl
      rw [h3, h2]
    obtain ⟨st', h1, h2, h3, h4, _⟩ := empty_text_step st item image c hp hseen hl hpt
    exact ⟨st', h1, h2, h3, h4⟩
  · intro hfail
    have hseen' : (lookupReg st.screenshots item.path).isSome = false := by
      rw [hseen]; rfl
    refine ⟨?_, rfl, hseen⟩
    rw [process_screenshot_item_of_image c hseen' hp hl]
    dsimp only
    rw [process_image_of_error st.pasteboard c (policy_text_of_failure hfail)]

/-- Witness for the amended C4: a handler-level error is absorbed (registry
entry "", pasteboard untouched) and a request-level failure raises. -/
theorem claim_C4_witness :
    (handlerErrorImage.vision (languages_for sampleState.settings)).handlerError =
      true ∧
    (failImage.vision (languages_for sampleState.settings)).success = false ∧
    (∃ st', process_screenshot_item sampleState
        { path := "/tmp/h.png", image := some handlerErrorImage } true = .ok st' ∧
      st'.pasteboard = sampleState.pasteboard ∧
      lookupReg st'.screenshots "/tmp/h.png" = some (.result "") ∧
      (sampleState.settings.notification = true →
        st'.notifications = sampleState.notifications ++
          [("Processed Screenshot", "/tmp/h.png", "No text detected")])) ∧
    process_screenshot_item sampleState
        { path := "/tmp/f.png", image := some failImage } true =
      .raised { sampleState with
                recog_log := sampleState.recog_log ++ ["/tmp/f.png"] }
        "Vision request failed" :=
  ⟨rfl, rfl,
   (claim_C4_recognition_errors sampleState
      { path := "/tmp/h.png", image := some handlerErrorImage }
      handlerErrorImage true rfl rfl rfl).1 rfl rfl rfl,
   ((claim_C4_recognition_errors sampleState
      { path := "/tmp/f.png", image := some failImage }
      failImage true rfl rfl rfl).2 rfl).1⟩

/-- C8: while paused, a new screenshot event records `"__SKIPPED__"` for the
identity, makes no recognition call, leaves the pasteboard untouched, and —
because the identity is now registered — any later event for the same
identity (in particular after resuming) is ignored without any state
change. -/
theorem claim_C8_paused (st : AppState) (item : ScreenshotItem) (c : Bool)
    (hp : st.paused = true)
    (hseen : lookupReg st.screenshots item.path = none) :
    ∃ st', process_screenshot_item st item c = .ok st' ∧
      lookupReg st'.screenshots item.path = some (.result SKIPPED) ∧
      SKIPPED = "__SKIPPED__" ∧
      st'.pasteboard = st.pasteboard ∧
      st'.recog_log = st.recog_log ∧
      (∀ (st2 : AppState) (item' : ScreenshotItem) (c' : Bool),
        item'.path = item.path →
        (lookupReg st2.screenshots item'.path).isSome →
        process_screenshot_item st2 item' c' = .ok st2) := by
  have hseen' : (lookupReg st.screenshots item.path).isSome = false := by
    rw [hseen]; rfl
  rw [process_screenshot_item_of_paused c hseen' hp]
  exact ⟨_, rfl, lookupReg_insertReg_self _ _ _, rfl, rfl, rfl,
    fun st2 item' c' _ h => process_screenshot_item_of_seen c' h⟩

/-- Witness for C8 at a concrete input. -/
theorem claim_C8_witness :
    pausedState.paused = true ∧
    ∃ st', process_screenshot_item pausedState
        { path := "/tmp/s.png", image := some okImage } true = .ok st' ∧
      lookupReg st'.screenshots "/tmp/s.png" = some (.result SKIPPED) ∧
      SKIPPED = "__SKIPPED__" ∧
      st'.pasteboard = pausedState.pasteboard ∧
      st'.recog_log = pausedState.recog_log ∧
      (∀ (st2 : AppState) (item' : ScreenshotItem) (c' : Bool),
        item'.path = "/tmp/s.png" →
        (lookupReg st2.screenshots item'.path).isSome →
        process_screenshot_item st2 item' c' = .ok st2) :=
  ⟨rfl,
   claim_C8_paused pausedState
     { path := "/tmp/s.png", image := some okImage } true rfl rfl⟩

/-- C9: a load failure on a fresh identity leaves the dispatcher state
completely unchanged — the identity is not marked seen, the pasteboard is
untouched and no recognition call is made — and a subsequent duplicate
notification for the same identity is still eligible: with a loadable image
it does invoke the recognition backend. -/
theorem claim_C9_load_failure (st : AppState) (item : ScreenshotItem) (c : Bool)
    (hp : st.paused = false)
    (hseen : lookupReg st.screenshots item.path = none)
    (hl : item.image = none) :
    process_screenshot_item st item c = .ok st ∧
    (∀ (image : CIImage) (c' : Bool),
      (process_screenshot_item st
          { path := item.path, image := some image } c').state.recog_log =
        st.recog_log ++ [item.path]) := by
  have hseen' : (lookupReg st.screenshots item.path).isSome = false := by
    rw [hseen]; rfl
  refine ⟨process_screenshot_item_of_load_failure c hseen' hp hl, ?_⟩
  intro image c'
  have hseen2 : (lookupReg st.screenshots
      ({ path := item.path, image := some image } : ScreenshotItem).path).isSome =
        false := hseen'
  rw [process_screenshot_item_of_image c' hseen2 hp rfl]
  dsimp only
  cases hpi : process_image st.settings st.pasteboard image c' with
  | error e => rfl
  | ok pr =>
      obtain ⟨dt, p'⟩ := pr
      dsimp only
      split <;> rfl

/-- Witness for C9 at a concrete input. -/
theorem claim_C9_witness :
    sampleState.paused = false ∧
    process_screenshot_item sampleState { path := "/tmp/x.png", image := none }
        true = .ok sampleState ∧
    (process_screenshot_item sampleState
        { path := "/tmp/x.png", image := some okImage } true).state.recog_log =
      sampleState.recog_log ++ ["/tmp/x.png"] :=
  ⟨rfl,
   (claim_C9_load_failure sampleState { path := "/tmp/x.png", image := none }
      true rfl rfl rfl).1,
   (claim_C9_load_failure sampleState { path := "/tmp/x.png", image := none }
      true rfl rfl rfl).2 okImage true⟩

end Textinator
